import Mathlib

/-!
Verification of the MCQ-generator pipeline (`app.py`) against its
natural-language specification.

The Python program is shallowly embedded below.  Python strings are Lean
`String`s, and the handful of Python string primitives the program uses
(`str.split`, `str.strip`, `str.join`, `str.lower`, slicing, `rsplit`) are
re-implemented structurally over the underlying character lists so that all
definitions compute by kernel reduction.  Python exceptions are modelled with
`Except PyErr`; a `try`/`except` block becomes a `match` that maps every
`.error` to the handler's result.  The external collaborators (the file
system read by the extractor, and the generative service called by
`Question_mcqs_generator`) are parameters of the embedded functions.
-/

/-- Python exceptions that the embedded code can raise: `IndexError` from
`rsplit(...)[1]`, I/O failures from reading files, and transport failures
(timeout / quota) from the outbound generation call. -/
inductive PyErr where
  | indexError
  | ioError
  | timeoutError
  | quotaError
deriving DecidableEq

/-- Worker for `pySplit`.  `fuel` starts at the length of the remaining list,
which bounds the number of steps (each step consumes at least one character),
so the `0, _ :: _` case is never reached from `pySplit`. -/
def pySplitGo (sep : List Char) : Nat → List Char → List Char → List (List Char)
  | _, [], acc => [acc.reverse]
  | 0, _ :: _, acc => [acc.reverse]
  | fuel + 1, c :: rest, acc =>
    if sep.isPrefixOf (c :: rest) then
      acc.reverse :: pySplitGo sep fuel (rest.drop (sep.length - 1)) []
    else
      pySplitGo sep fuel rest (c :: acc)

/-- Python `s.split(sep)` for a non-empty separator: non-overlapping
left-to-right splitting, keeping empty segments. -/
def pySplit (s sep : String) : List String :=
  (pySplitGo sep.data s.data.length s.data []).map (fun cs => String.mk cs)

/-- Python `s.strip()`: remove whitespace from both ends. -/
def pyStrip (s : String) : String :=
  String.mk (((s.data.dropWhile Char.isWhitespace).reverse.dropWhile Char.isWhitespace).reverse)

/-- Python `sep.join(xs)`. -/
def pyJoin (sep : String) : List String → String
  | [] => ""
  | [x] => x
  | x :: y :: rest => x ++ sep ++ pyJoin sep (y :: rest)

/-- ASCII lower-casing of one character (what `str.lower()` does on the
extension strings this program compares). -/
def pyLowerChar (c : Char) : Char :=
  if 'A' ≤ c ∧ c ≤ 'Z' then Char.ofNat (c.toNat + 32) else c

/-- Python `s.lower()`. -/
def pyLower (s : String) : String :=
  String.mk (s.data.map pyLowerChar)

/-- Python `s[:n]`: the first `n` characters of `s`. -/
def pyTruncate (s : String) (n : Nat) : String :=
  String.mk (s.data.take n)

/-- Python `s[n:]`: drop the first `n` characters of `s`. -/
def pyDrop (s : String) (n : Nat) : String :=
  String.mk (s.data.drop n)

/-- Python `s.startswith(pre)`. -/
def pyStartsWith (pre s : String) : Bool :=
  pre.data.isPrefixOf s.data

/-- Python `s.rsplit('.', 1)` when it yields two pieces: `some (stem, ext)`
if `s` contains a dot (split at the last dot), `none` otherwise (in which
case indexing `[1]` in the source raises `IndexError`). -/
def rsplitExt (s : String) : Option (String × String) :=
  match (pySplit s ".").reverse with
  | [] => none
  | [_] => none
  | last :: rest => some (pyJoin "." rest.reverse, last)

/-- Python `filename.rsplit('.', 1)[0]`: everything before the last dot, or
the whole string when there is no dot (app.py lines 152-153). -/
def stem (filename : String) : String :=
  match (pySplit filename ".").reverse with
  | [] => filename
  | [only] => only
  | _ :: rest => pyJoin "." rest.reverse

/-- The external collaborators of `extract_text_from_file`: per-page text
extraction results of `pdfplumber` (a page yielding `none` models
`page.extract_text()` returning `None`), the paragraph texts of
`docx.Document`, and reading a text file.  Each access can raise. -/
structure FS where
  pdfPages : String → Except PyErr (List (Option String))
  docxParas : String → Except PyErr (List String)
  readTxt : String → Except PyErr String

/-- The body of the `try:` block of `extract_text_from_file` (app.py lines
50-59): dispatch on the lower-cased extension taken from
`file_path.rsplit('.', 1)[1]`; errors propagate out of the block. -/
def extract_text_body (fs : FS) (file_path : String) : Except PyErr (Option String) :=
  match rsplitExt file_path with
  | none => Except.error PyErr.indexError
  | some (_, e) =>
    let ext := pyLower e
    if ext = "pdf" then
      match fs.pdfPages file_path with
      | Except.error err => Except.error err
      | Except.ok pages =>
        Except.ok (some (pyJoin "\n" (pages.map (fun pg => pg.getD ""))))
    else if ext = "docx" then
      match fs.docxParas file_path with
      | Except.error err => Except.error err
      | Except.ok paras => Except.ok (some (pyJoin "\n" paras))
    else if ext = "txt" then
      match fs.readTxt file_path with
      | Except.error err => Except.error err
      | Except.ok content => Except.ok (some content)
    else
      Except.ok none

/-- `extract_text_from_file` (app.py lines 49-62): the `try:` body with the
catch-all `except` that logs and falls through to `return None`. -/
def extract_text_from_file (fs : FS) (file_path : String) : Option String :=
  match extract_text_body fs file_path with
  | Except.ok r => r
  | Except.error _ => none

/-- `allowed_file` (app.py line 47). -/
def allowed_file (filename : String) : Bool :=
  match rsplitExt filename with
  | none => false
  | some (_, e) => ["pdf", "txt", "docx"].contains (pyLower e)

/-- One element of `response.candidates[0].content.parts`: modelled by its
optional `text` attribute (`none` when the attribute is absent). -/
structure GenPart where
  text : Option String
deriving DecidableEq

/-- A Gemini response as `Question_mcqs_generator` inspects it: an optional
aggregated `text` attribute, and an optional `candidates` list where each
candidate is identified with the list of its `content.parts`. -/
structure GenResponse where
  text : Option String
  candidates : Option (List (List GenPart))
deriving DecidableEq

/-- The fragment text the loop at app.py lines 86-88 appends for one part:
present only when the part has a non-empty `text` attribute. -/
def partText (p : GenPart) : Option String :=
  match p.text with
  | some s => if s ≠ "" then some s else none
  | none => none

/-- The `elif hasattr(response, "candidates")` branch (app.py lines 84-90)
together with the fall-through `return None` (line 93).  `candidates = []`
makes `response.candidates[0]` raise `IndexError`, which the enclosing
`except` turns into `None`. -/
def responseFallback (r : GenResponse) : Option String :=
  match r.candidates with
  | none => none
  | some [] => none
  | some (c :: _) =>
    let text_parts := c.filterMap partText
    if text_parts = [] then none
    else some (pyStrip (pyJoin "\n" text_parts))

/-- Response-payload extraction of `Question_mcqs_generator` (app.py lines
82-93): the aggregated `text` attribute is checked first and returned
(stripped) when truthy; otherwise the fragments of the first candidate are
joined with newlines; otherwise the result is `None`. -/
def extract_response_text (r : GenResponse) : Option String :=
  match r.text with
  | some t => if t ≠ "" then some (pyStrip t) else responseFallback r
  | none => responseFallback r

/-- The fixed part of the prompt f-string before the embedded text
(app.py lines 66-68). -/
def promptPre (num_questions : Int) : String :=
  "\n    Generate " ++ toString num_questions ++ " MCQs from the following text:\n    '"

/-- The fixed part of the prompt f-string after the embedded text
(app.py lines 68-77). -/
def promptPost : String :=
  "'\n    Format:\n    ## MCQ\n    Question: [question]\n    A) [option A]\n    B) [option B]\n    C) [option C]\n    D) [option D]\n    Correct Answer: [correct option]\n    "

/-- The prompt built by `Question_mcqs_generator` (app.py lines 66-77); the
input text is embedded as the Python slice `input_text[:1000]`. -/
def buildPrompt (input_text : String) (num_questions : Int) : String :=
  promptPre num_questions ++ pyTruncate input_text 1000 ++ promptPost

/-- `Question_mcqs_generator` (app.py lines 64-96), parameterized by the
generative service `svc` (`model.generate_content`, which may raise a
transport / quota / timeout error).  Any raised error is caught by the
`except` at line 94 and becomes `None`. -/
def Question_mcqs_generator (svc : String → Except PyErr GenResponse)
    (input_text : String) (num_questions : Int) : Option String :=
  match svc (buildPrompt input_text num_questions) with
  | Except.error _ => none
  | Except.ok response => extract_response_text response

/-- The blocks rendered into the PDF by `create_pdf` (app.py lines 113-116):
split the raw string on the literal `"## MCQ"`, keep each block whose strip
is non-empty, and render its stripped text. -/
def pdfBlocks (mcqs : String) : List String :=
  ((pySplit mcqs "## MCQ").filter (fun m => pyStrip m != "")).map (fun m => pyStrip m)

/-- The outcomes of the file-writing side effects, which may raise:
`writeText path content` models `open(path, 'w')` followed by
`f.write(content)` in `save_mcqs_to_file` (app.py lines 101-102), and
`writePdf path blocks` models the `multi_cell` rendering loop together with
`pdf.output(path)` in `create_pdf` (app.py lines 113-118).  A raising write
is modelled as producing no artifact. -/
structure WriteEnv where
  writeText : String → String → Except PyErr Unit
  writePdf : String → List String → Except PyErr Unit

/-- `save_mcqs_to_file` (app.py lines 98-106): write the raw `mcqs` string
verbatim to `results/<filename>` and return that path; when the write raises,
the exception is caught, logged, and `None` is returned. -/
def save_mcqs_to_file (disk : WriteEnv) (mcqs filename : String) : Option String :=
  match disk.writeText ("results/" ++ filename) mcqs with
  | Except.ok _ => some ("results/" ++ filename)
  | Except.error _ => none

/-- `create_pdf` (app.py lines 108-122): render the non-blank `"## MCQ"`
blocks (`pdfBlocks`) into `results/<filename>` and return that path; when
rendering or output raises, the exception is caught, logged, and `None` is
returned. -/
def create_pdf (disk : WriteEnv) (mcqs filename : String) : Option String :=
  match disk.writePdf ("results/" ++ filename) (pdfBlocks mcqs) with
  | Except.ok _ => some ("results/" ++ filename)
  | Except.error _ => none

/-- An output artifact successfully written into the results directory: the
plain-text transcript written by `save_mcqs_to_file` (content `mcqs`,
verbatim), or the PDF written by `create_pdf` (identified by its rendered
blocks). -/
inductive Artifact where
  | txtFile (path : String) (content : String)
  | pdfFile (path : String) (blocks : List String)
deriving DecidableEq

/-- The page / message returned by the `/generate` route. -/
inductive Response where
  | invalidUpload
  | extractionFailedMsg
  | generationFailedMsg
  | resultsPage (mcqs : String) (txt_filename : String) (pdf_filename : String)
deriving DecidableEq

/-- Observable trace of one `/generate` request: the texts passed to
`Question_mcqs_generator`, the files written, and the returned page. -/
structure RunTrace where
  genCalls : List String
  writes : List Artifact
  response : Response
deriving DecidableEq

/-- The files actually written by the success branch (app.py lines 154-155):
`save_mcqs_to_file` and `create_pdf` are each attempted once, and each
contributes an artifact exactly when its write did not raise. -/
def successWrites (disk : WriteEnv) (filename mcqs : String) : List Artifact :=
  (match save_mcqs_to_file disk mcqs ("generated_mcqs_" ++ stem filename ++ ".txt") with
   | some p => [Artifact.txtFile p mcqs]
   | none => [])
  ++ (match create_pdf disk mcqs ("generated_mcqs_" ++ stem filename ++ ".pdf") with
      | some p => [Artifact.pdfFile p (pdfBlocks mcqs)]
      | none => [])

/-- The success branch of the route (app.py lines 152-157): derive the two
output filenames from the stem of the uploaded filename, attempt the `.txt`
and `.pdf` writes, and return the results page reporting both names — the
route ignores the `None` returns of `save_mcqs_to_file` and `create_pdf`, so
the results page is rendered even when a write failed. -/
def successTrace (disk : WriteEnv) (filename text mcqs : String) : RunTrace :=
  ⟨[text],
   successWrites disk filename mcqs,
   Response.resultsPage mcqs ("generated_mcqs_" ++ stem filename ++ ".txt")
     ("generated_mcqs_" ++ stem filename ++ ".pdf")⟩

/-- The `/generate` route `generate_mcqs` (app.py lines 131-162) after the
upload has been saved: check `allowed_file`, extract text from
`uploads/<filename>`, reject falsy text (`if not text`), call
`Question_mcqs_generator`, reject a falsy result (`if not mcqs`), and
otherwise attempt the two artifact writes and return the results page. -/
def generate_mcqs (fs : FS) (svc : String → Except PyErr GenResponse)
    (disk : WriteEnv) (filename : String) (num_questions : Int) : RunTrace :=
  if allowed_file filename then
    match extract_text_from_file fs ("uploads/" ++ filename) with
    | none => ⟨[], [], Response.extractionFailedMsg⟩
    | some text =>
      if text = "" then ⟨[], [], Response.extractionFailedMsg⟩
      else
        match Question_mcqs_generator svc text num_questions with
        | none => ⟨[text], [], Response.generationFailedMsg⟩
        | some mcqs =>
          if mcqs = "" then ⟨[text], [], Response.generationFailedMsg⟩
          else successTrace disk filename text mcqs
  else ⟨[], [], Response.invalidUpload⟩

/-- A structured MCQ record as described by the specification (§3).  The
repository's code never builds such records; this type exists to state the
specification's parsing claims against the code's actual behavior. -/
structure MCQRecord where
  question : String
  optionA : String
  optionB : String
  optionC : String
  optionD : String
  correct_label : String
deriving DecidableEq

/-- Modelled from the spec (§4.4, step "locate a line beginning with ..."):
the trimmed remainder of the first line starting with `pre`, if any. -/
def lineRemainder (pre : String) (lines : List String) : Option String :=
  match lines.find? (fun l => pyStartsWith pre l) with
  | some l => some (pyStrip (pyDrop l pre.data.length))
  | none => none

/-- Modelled from the spec (§4.4, step 1): locate the first line beginning
with `pre`; return its trimmed remainder together with the lines after it. -/
def findLineWithRest (pre : String) : List String → Option (String × List String)
  | [] => none
  | l :: ls =>
    if pyStartsWith pre l then some (pyStrip (pyDrop l pre.data.length), ls)
    else findLineWithRest pre ls

/-- Modelled from the spec (§4.4 McqParser, which has no counterpart in the
source): structured extraction from one candidate block.  A block is valid
only if it has a non-empty `Question:` line, four non-empty option lines
`A)`-`D)` in any order appearing after the question line, and a
`Correct Answer:` line whose first letter is one of A-D. -/
def spec_parseBlock (block : String) : Option MCQRecord :=
  let lines := (pySplit block "\n").map (fun l => pyStrip l)
  match findLineWithRest "Question:" lines with
  | none => none
  | some (q, after) =>
    match lineRemainder "A)" after, lineRemainder "B)" after,
          lineRemainder "C)" after, lineRemainder "D)" after,
          lineRemainder "Correct Answer:" lines with
    | some a, some b, some c, some d, some ca =>
      if q != "" && a != "" && b != "" && c != "" && d != ""
          && ["A", "B", "C", "D"].contains (pyTruncate ca 1) then
        some ⟨q, a, b, c, d, pyTruncate ca 1⟩
      else none
    | _, _, _, _, _ => none

/-- Modelled from the spec (§4.4): split on `"## MCQ"`, drop blank blocks,
keep exactly the blocks that validate into records, in order. -/
def spec_parse (raw : String) : List MCQRecord :=
  ((pySplit raw "## MCQ").filter (fun b => pyStrip b != "")).filterMap spec_parseBlock

/-- Modelled from the spec (§8): a raw response is fully well-formed when
every non-blank `"## MCQ"` block validates into a record. -/
def fullyWellFormed (raw : String) : Bool :=
  ((pySplit raw "## MCQ").filter (fun b => pyStrip b != "")).all
    (fun b => (spec_parseBlock b).isSome)

/-- Modelled from the spec (§8 round-trip property): split the raw response
on the `"## MCQ"` delimiter and rejoin the (trimmed, non-blank) blocks
separated by blank lines. -/
def spec_rejoin (raw : String) : String :=
  pyJoin "\n\n" (((pySplit raw "## MCQ").filter (fun b => pyStrip b != "")).map (fun b => pyStrip b))

/-- The trimmed well-formed blocks of a raw response, in their original
relative order (used to compare the spec's tolerant-drop parser with the
code's rendering). -/
def wellFormedBlocks (raw : String) : List String :=
  (((pySplit raw "## MCQ").filter (fun b => pyStrip b != "")).filter
    (fun b => (spec_parseBlock b).isSome)).map (fun b => pyStrip b)

/-- A file system whose text files all read as `"hi"` (PDF and DOCX reads
raise). -/
def fsHi : FS :=
  ⟨fun _ => Except.error PyErr.ioError,
   fun _ => Except.error PyErr.ioError,
   fun _ => Except.ok "hi"⟩

/-- A file system whose text files all read as the whitespace-only string
`" "`. -/
def fsWs : FS :=
  ⟨fun _ => Except.error PyErr.ioError,
   fun _ => Except.error PyErr.ioError,
   fun _ => Except.ok " "⟩

/-- A file system whose PDFs have exactly two pages, both of which fail to
yield text (`page.extract_text()` returns `None` on each). -/
def fsPdfFail : FS :=
  ⟨fun _ => Except.ok [none, none],
   fun _ => Except.error PyErr.ioError,
   fun _ => Except.error PyErr.ioError⟩

/-- A file system whose PDFs have two pages: the first yields `"hi"`, the
second fails to yield text. -/
def fsPdfHi : FS :=
  ⟨fun _ => Except.ok [some "hi", none],
   fun _ => Except.error PyErr.ioError,
   fun _ => Except.error PyErr.ioError⟩

/-- A generation service that always raises a timeout. -/
def svcTimeout : String → Except PyErr GenResponse :=
  fun _ => Except.error PyErr.timeoutError

/-- A generation service whose aggregated text field is `"garbage"`: a
non-empty response that contains no `"## MCQ"` block at all. -/
def svcGarbage : String → Except PyErr GenResponse :=
  fun _ => Except.ok ⟨some "garbage", none⟩

/-- A raw response with one well-formed `"## MCQ"` block followed by one
malformed (but non-blank) block. -/
def rawMix : String :=
  "## MCQ\nQuestion: q\nA) 1\nB) 2\nC) 3\nD) 4\nCorrect Answer: B\n## MCQ\njunk"

/-- A fully well-formed raw response consisting of a single `"## MCQ"`
block. -/
def exC7 : String :=
  "## MCQ\nQuestion: q\nA) 1\nB) 2\nC) 3\nD) 4\nCorrect Answer: B"

/-- A generation service whose aggregated text field is the fully
well-formed raw response `exC7`. -/
def svcEx7 : String → Except PyErr GenResponse :=
  fun _ => Except.ok ⟨some exC7, none⟩

/-- A write environment in which every write succeeds. -/
def diskOk : WriteEnv :=
  ⟨fun _ _ => Except.ok (), fun _ _ => Except.ok ()⟩

/-- A write environment in which the transcript write raises (e.g. the disk
is full when `save_mcqs_to_file` opens its file) while the PDF write
succeeds. -/
def diskNoTxt : WriteEnv :=
  ⟨fun _ _ => Except.error PyErr.ioError, fun _ _ => Except.ok ()⟩

theorem string_eq_of_data : ∀ {s t : String}, s.data = t.data → s = t
  | ⟨_⟩, ⟨_⟩, rfl => rfl

theorem string_data_mk (l : List Char) : (String.mk l).data = l := rfl

theorem string_length_data (s : String) : s.length = s.data.length := rfl

theorem string_data_append (s t : String) : (s ++ t).data = s.data ++ t.data := by
  cases s; cases t; rfl

/-- Python slicing is lossless: `s[:n] + s[n:] == s`. -/
theorem pyTruncate_append_pyDrop (s : String) (n : Nat) :
    pyTruncate s n ++ pyDrop s n = s := by
  apply string_eq_of_data
  rw [string_data_append, pyTruncate, pyDrop, string_data_mk, string_data_mk,
    List.take_append_drop]

theorem successTrace_writes (disk : WriteEnv) (fn t m : String) :
    (successTrace disk fn t m).writes = successWrites disk fn m := rfl

/-- A transcript artifact appears among a success branch's writes only with
the raw `mcqs` string as its content. -/
theorem successWrites_txtFile_mem (disk : WriteEnv) (fn m p c : String)
    (h : Artifact.txtFile p c ∈ successWrites disk fn m) : c = m := by
  simp only [successWrites, List.mem_append] at h
  rcases h with h | h
  · cases hT : save_mcqs_to_file disk m ("generated_mcqs_" ++ stem fn ++ ".txt") with
    | none => rw [hT] at h; simp at h
    | some q => rw [hT] at h; simp at h; exact h.2
  · cases hP : create_pdf disk m ("generated_mcqs_" ++ stem fn ++ ".pdf") with
    | none => rw [hP] at h; simp at h
    | some q => rw [hP] at h; simp at h

/-- The files a success branch actually writes are a sublist (in order) of
the two deterministically named artifacts. -/
theorem successWrites_sublist (disk : WriteEnv) (fn m : String) :
    (successWrites disk fn m).Sublist
      [Artifact.txtFile ("results/" ++ ("generated_mcqs_" ++ stem fn ++ ".txt")) m,
       Artifact.pdfFile ("results/" ++ ("generated_mcqs_" ++ stem fn ++ ".pdf")) (pdfBlocks m)] := by
  have h1 : (match save_mcqs_to_file disk m ("generated_mcqs_" ++ stem fn ++ ".txt") with
      | some p => [Artifact.txtFile p m]
      | none => ([] : List Artifact)).Sublist
      [Artifact.txtFile ("results/" ++ ("generated_mcqs_" ++ stem fn ++ ".txt")) m] := by
    cases hT : disk.writeText ("results/" ++ ("generated_mcqs_" ++ stem fn ++ ".txt")) m with
    | ok u =>
      simp only [save_mcqs_to_file, hT]
      exact List.Sublist.refl _
    | error err =>
      simp only [save_mcqs_to_file, hT]
      exact List.nil_sublist _
  have h2 : (match create_pdf disk m ("generated_mcqs_" ++ stem fn ++ ".pdf") with
      | some p => [Artifact.pdfFile p (pdfBlocks m)]
      | none => ([] : List Artifact)).Sublist
      [Artifact.pdfFile ("results/" ++ ("generated_mcqs_" ++ stem fn ++ ".pdf")) (pdfBlocks m)] := by
    cases hP : disk.writePdf ("results/" ++ ("generated_mcqs_" ++ stem fn ++ ".pdf")) (pdfBlocks m) with
    | ok u =>
      simp only [create_pdf, hP]
      exact List.Sublist.refl _
    | error err =>
      simp only [create_pdf, hP]
      exact List.nil_sublist _
  simpa [successWrites] using List.Sublist.append h1 h2

/-- When neither write raises, a success branch writes exactly the two
deterministically named artifacts. -/
theorem successWrites_ok (disk : WriteEnv) (fn m : String)
    (hT : disk.writeText ("results/" ++ ("generated_mcqs_" ++ stem fn ++ ".txt")) m = Except.ok ())
    (hP : disk.writePdf ("results/" ++ ("generated_mcqs_" ++ stem fn ++ ".pdf")) (pdfBlocks m)
        = Except.ok ()) :
    successWrites disk fn m
      = [Artifact.txtFile ("results/" ++ ("generated_mcqs_" ++ stem fn ++ ".txt")) m,
         Artifact.pdfFile ("results/" ++ ("generated_mcqs_" ++ stem fn ++ ".pdf")) (pdfBlocks m)] := by
  simp [successWrites, save_mcqs_to_file, create_pdf, hT, hP]

/-- Exhaustive case analysis of one `/generate` request: it is rejected as an
invalid upload, fails extraction, fails generation (having called the
generator on the extracted text), or succeeds and attempts both artifact
writes. -/
theorem generate_mcqs_cases (fs : FS) (svc : String → Except PyErr GenResponse)
    (disk : WriteEnv) (fn : String) (n : Int) :
    (allowed_file fn = false ∧ generate_mcqs fs svc disk fn n = ⟨[], [], Response.invalidUpload⟩)
    ∨ (allowed_file fn = true
        ∧ (extract_text_from_file fs ("uploads/" ++ fn) = none
            ∨ extract_text_from_file fs ("uploads/" ++ fn) = some "")
        ∧ generate_mcqs fs svc disk fn n = ⟨[], [], Response.extractionFailedMsg⟩)
    ∨ (∃ t, allowed_file fn = true
        ∧ extract_text_from_file fs ("uploads/" ++ fn) = some t ∧ t ≠ ""
        ∧ (Question_mcqs_generator svc t n = none ∨ Question_mcqs_generator svc t n = some "")
        ∧ generate_mcqs fs svc disk fn n = ⟨[t], [], Response.generationFailedMsg⟩)
    ∨ (∃ t m, allowed_file fn = true
        ∧ extract_text_from_file fs ("uploads/" ++ fn) = some t ∧ t ≠ ""
        ∧ Question_mcqs_generator svc t n = some m ∧ m ≠ ""
        ∧ generate_mcqs fs svc disk fn n = successTrace disk fn t m) := by
  by_cases hA : allowed_file fn = true
  · cases hE : extract_text_from_file fs ("uploads/" ++ fn) with
    | none =>
      exact Or.inr (Or.inl ⟨hA, Or.inl rfl, by simp [generate_mcqs, hA, hE]⟩)
    | some t =>
      by_cases hT : t = ""
      · exact Or.inr (Or.inl ⟨hA, Or.inr (by rw [hT]), by simp [generate_mcqs, hA, hE, hT]⟩)
      · cases hG : Question_mcqs_generator svc t n with
        | none =>
          exact Or.inr (Or.inr (Or.inl ⟨t, hA, rfl, hT, Or.inl hG,
            by simp [generate_mcqs, hA, hE, hT, hG]⟩))
        | some m =>
          by_cases hM : m = ""
          · exact Or.inr (Or.inr (Or.inl ⟨t, hA, rfl, hT, Or.inr (hM ▸ hG),
              by simp [generate_mcqs, hA, hE, hT, hG, hM]⟩))
          · exact Or.inr (Or.inr (Or.inr ⟨t, m, hA, rfl, hT, hG, hM,
              by simp [generate_mcqs, hA, hE, hT, hG, hM]⟩))
  · refine Or.inl ⟨by simpa using hA, ?_⟩
    simp only [generate_mcqs]
    rw [if_neg (by simpa using hA)]

/-- C9: `extract_text_from_file` is total over all path strings: the
catch-all `except` turns every error raised in the `try:` body into `None`,
so for every file system and path the function returns a string or `None` —
in particular for a path with no dot (where `rsplit('.', 1)[1]` raises
`IndexError`), for an unrecognized extension (where the body falls through),
and for a text file whose read raises — and never propagates an exception to
its caller. -/
theorem extract_total_thm (fs : FS) (p : String) :
    (extract_text_from_file fs p = none ∨ ∃ s, extract_text_from_file fs p = some s)
    ∧ (∀ err, extract_text_body fs p = Except.error err → extract_text_from_file fs p = none)
    ∧ (rsplitExt p = none → extract_text_from_file fs p = none)
    ∧ (∀ st e, rsplitExt p = some (st, e) → pyLower e ≠ "pdf" → pyLower e ≠ "docx" →
        pyLower e ≠ "txt" → extract_text_from_file fs p = none)
    ∧ (∀ st e err, rsplitExt p = some (st, e) → pyLower e = "txt" →
        fs.readTxt p = Except.error err → extract_text_from_file fs p = none) := by
  refine ⟨?_, ?_, ?_, ?_, ?_⟩
  · cases hx : extract_text_from_file fs p with
    | none => exact Or.inl rfl
    | some s => exact Or.inr ⟨s, rfl⟩
  · intro err h
    rw [extract_text_from_file, h]
  · intro h
    rw [extract_text_from_file, extract_text_body, h]
  · intro st e h h1 h2 h3
    rw [extract_text_from_file, extract_text_body, h]
    simp only [h1, h2, h3, if_false, ite_false, if_neg]
  · intro st e err h h1 h2
    rw [extract_text_from_file, extract_text_body, h]
    simp [h1, h2]

/-- Witness for C9: on the dot-free path `"noext"` the extractor returns
`None` instead of propagating the `IndexError`. -/
theorem extract_total_witness : extract_text_from_file fsHi "noext" = none :=
  (extract_total_thm fsHi "noext").2.2.1 (by decide)

/-- A text of 1001 `'a'` characters, exceeding the 1000-character cap. -/
def bigA : String := String.mk (List.replicate 1001 'a')

/-- C3: the prompt embeds the input text truncated to the fixed cap of 1000
characters: the prompt is the fixed template around `input_text[:1000]`, and
when the text is longer than 1000 characters the embedded slice has exactly
1000 characters and is an initial segment of the text.  `buildPrompt` is a
total function, so truncation never fails the request. -/
theorem prompt_truncation_thm (t : String) (n : Int) (h : 1000 < t.length) :
    buildPrompt t n = promptPre n ++ pyTruncate t 1000 ++ promptPost
    ∧ (pyTruncate t 1000).length = 1000
    ∧ ∃ rest, pyTruncate t 1000 ++ rest = t := by
  refine ⟨rfl, ?_, ⟨pyDrop t 1000, pyTruncate_append_pyDrop t 1000⟩⟩
  rw [string_length_data] at h
  rw [pyTruncate, string_length_data, string_data_mk, List.length_take]
  omega

/-- Witness for C3: on a 1001-character text the embedded slice has exactly
1000 characters. -/
theorem prompt_truncation_witness : (pyTruncate bigA 1000).length = 1000 :=
  (prompt_truncation_thm bigA 5
    (by rw [bigA, string_length_data, string_data_mk, List.length_replicate]; omega)).2.1

/-- C4: the generation client checks the aggregated `text` field first and
returns its (stripped) payload when it is non-empty; when that field is
absent or empty it falls back to joining the first candidate's non-empty
content fragments in order with newline separators; and it returns the
empty-response outcome `None` exactly when the `text` field yields no
non-empty text and the fragments yield none either. -/
theorem response_handling_thm (r : GenResponse) :
    (∀ t, r.text = some t → t ≠ "" → extract_response_text r = some (pyStrip t))
    ∧ ((r.text = none ∨ r.text = some "") →
        ∀ c cs, r.candidates = some (c :: cs) → c.filterMap partText ≠ [] →
          extract_response_text r = some (pyStrip (pyJoin "\n" (c.filterMap partText))))
    ∧ (extract_response_text r = none ↔
        ((r.text = none ∨ r.text = some "")
          ∧ ∀ c cs, r.candidates = some (c :: cs) → c.filterMap partText = [])) := by
  obtain ⟨tf, cands⟩ := r
  refine ⟨?_, ?_, ?_⟩
  · intro t ht hne
    simp only at ht
    subst ht
    simp [extract_response_text, hne]
  · intro htf c cs hc hne
    simp only at hc
    subst hc
    have hfb : responseFallback ⟨tf, some (c :: cs)⟩
        = some (pyStrip (pyJoin "\n" (c.filterMap partText))) := by
      simp [responseFallback, hne]
    rcases htf with h | h <;> simp only at h <;> subst h <;>
      simp [extract_response_text, hfb]
  · constructor
    · intro h
      cases tf with
      | some t =>
        by_cases ht : t = ""
        · subst ht
          refine ⟨Or.inr rfl, ?_⟩
          intro c cs hc
          simp only at hc
          subst hc
          simp only [extract_response_text, ne_eq, not_true_eq_false, if_false,
            ite_false] at h
          by_contra hne
          simp [responseFallback, hne] at h
        · exfalso
          simp [extract_response_text, ht] at h
      | none =>
        refine ⟨Or.inl rfl, ?_⟩
        intro c cs hc
        simp only at hc
        subst hc
        simp only [extract_response_text] at h
        by_contra hne
        simp [responseFallback, hne] at h
    · rintro ⟨h1, h2⟩
      have hfb : responseFallback ⟨tf, cands⟩ = none := by
        cases cands with
        | none => rfl
        | some l =>
          cases l with
          | nil => rfl
          | cons c cs =>
            have := h2 c cs rfl
            simp [responseFallback, this]
      rcases h1 with h | h <;> simp only at h <;> subst h <;>
        simp [extract_response_text, hfb]

/-- Witness for C4: a response with no aggregated `text` field and fragments
`"x"` and `"y"` (with an attribute-less part between them) falls back to the
newline join `"x\ny"`. -/
theorem response_handling_witness :
    extract_response_text ⟨none, some [[⟨some "x"⟩, ⟨none⟩, ⟨some "y"⟩]]⟩ = some "x\ny" := by
  have h := (response_handling_thm ⟨none, some [[⟨some "x"⟩, ⟨none⟩, ⟨some "y"⟩]]⟩).2.1
    (Or.inl rfl) [⟨some "x"⟩, ⟨none⟩, ⟨some "y"⟩] [] rfl (by decide)
  rw [h]
  decide

/-- C1 (amended): any text reaching `Question_mcqs_generator` from
`extract_text_from_file` is non-empty — the route's `if not text` guard
rejects `None` and the empty string — but it is not guaranteed to contain a
non-whitespace character. -/
theorem genCalls_nonempty_thm (fs : FS) (svc : String → Except PyErr GenResponse)
    (disk : WriteEnv) (fn : String) (n : Int) (t : String)
    (h : t ∈ (generate_mcqs fs svc disk fn n).genCalls) : t ≠ "" := by
  rcases generate_mcqs_cases fs svc disk fn n with ⟨_, hEq⟩ | ⟨_, _, hEq⟩
    | ⟨u, _, _, hU, _, hEq⟩ | ⟨u, m, _, _, hU, _, _, hEq⟩
  · rw [hEq] at h; simp at h
  · rw [hEq] at h; simp at h
  · rw [hEq] at h
    simp only [List.mem_singleton] at h
    subst h; exact hU
  · rw [hEq] at h
    simp only [successTrace, List.mem_singleton] at h
    subst h; exact hU

/-- Witness for C1 (amended): a concrete run that calls the generator with
the non-empty text `"hi"`. -/
theorem genCalls_nonempty_witness : "hi" ≠ "" :=
  genCalls_nonempty_thm fsHi svcTimeout diskOk "a.txt" 1 "hi" (by decide)

/-- Counterexample to C1 as stated: a text file reading as the
whitespace-only string `" "` passes the `if not text` guard, so the
whitespace-only text is passed to `Question_mcqs_generator`. -/
theorem whitespace_text_downstream_cex :
    (generate_mcqs fsWs svcTimeout diskOk "a.txt" 1).genCalls = [" "] ∧ pyStrip " " = "" := by
  decide

/-- C2 (amended): splitting the raw response on `"## MCQ"` keeps exactly the
non-blank blocks — malformed ones included — and the well-formed blocks
appear among the rendered blocks in their original relative order; the
splitting never fails.  There is no structured validation: the rendered
block count equals the non-blank block count, not the well-formed count. -/
theorem blocks_kept_in_order_thm (raw : String) :
    (pdfBlocks raw).length
      = ((pySplit raw "## MCQ").filter (fun b => pyStrip b != "")).length
    ∧ (wellFormedBlocks raw).Sublist (pdfBlocks raw) := by
  constructor
  · simp [pdfBlocks]
  · exact List.Sublist.map _ (List.filter_sublist _)

/-- Counterexample to C2 as stated: `rawMix` has N = 1 well-formed block and
M = 1 malformed non-blank block, yet the code renders 2 blocks — the
malformed block `"junk"` is kept, not dropped. -/
theorem malformed_block_rendered_cex :
    (spec_parse rawMix).length = 1 ∧ (pdfBlocks rawMix).length = 2
    ∧ pdfBlocks rawMix
      = ["Question: q\nA) 1\nB) 2\nC) 3\nD) 4\nCorrect Answer: B", "junk"] := by
  decide

/-- C5 (amended): if the generation stage fails — the service raises (e.g. a
timeout or quota error) or returns no usable text, so that
`Question_mcqs_generator` yields `None` or an empty string — the pipeline
writes no output files. -/
theorem no_writes_on_generation_failure_thm (fs : FS)
    (svc : String → Except PyErr GenResponse) (disk : WriteEnv) (fn : String) (n : Int)
    (h : ∀ t, Question_mcqs_generator svc t n = none
        ∨ Question_mcqs_generator svc t n = some "") :
    (generate_mcqs fs svc disk fn n).writes = [] := by
  rcases generate_mcqs_cases fs svc disk fn n with ⟨_, hEq⟩ | ⟨_, _, hEq⟩
    | ⟨u, _, _, _, _, hEq⟩ | ⟨u, m, _, _, _, hG, hM, hEq⟩
  · rw [hEq]
  · rw [hEq]
  · rw [hEq]
  · rcases h u with h0 | h0 <;> rw [hG] at h0
    · exact absurd h0 (by simp)
    · exact absurd (Option.some.inj h0) hM

/-- Witness for C5 (amended): with a service that always times out, a run
writes no files. -/
theorem no_writes_on_generation_failure_witness :
    (generate_mcqs fsHi svcTimeout diskOk "a.txt" 1).writes = [] :=
  no_writes_on_generation_failure_thm fsHi svcTimeout diskOk "a.txt" 1 (fun _ => Or.inl rfl)

/-- Counterexample to C5 as stated: the non-empty generation response
`"garbage"` contains zero valid MCQ records, yet both artifacts are written
— artifact writing is not conditioned on parse validation. -/
theorem writes_without_valid_records_cex :
    spec_parse "garbage" = []
    ∧ (generate_mcqs fsHi svcGarbage diskOk "a.txt" 1).writes
      = [Artifact.txtFile "results/generated_mcqs_a.txt" "garbage",
         Artifact.pdfFile "results/generated_mcqs_a.pdf" ["garbage"]] := by
  decide

/-- C8 (amended): every successful pipeline run derives the two output names
deterministically from the filename stem and reports exactly
`generated_mcqs_<stem>.txt` and `generated_mcqs_<stem>.pdf` on the results
page; the files actually written are exactly the two attempted writes that
did not raise — always a sublist (in order) of those two artifacts — and
when neither `save_mcqs_to_file`'s write nor `create_pdf`'s rendering/output
raises, exactly those two files are written.  A raising write is caught,
logged and ignored (its `None` return is discarded by the route), so a run
that reports success may leave fewer than two files. -/
theorem two_artifacts_thm (fs : FS) (svc : String → Except PyErr GenResponse)
    (disk : WriteEnv) (fn : String) (n : Int) (m tn pn : String)
    (h : (generate_mcqs fs svc disk fn n).response = Response.resultsPage m tn pn) :
    tn = "generated_mcqs_" ++ stem fn ++ ".txt"
    ∧ pn = "generated_mcqs_" ++ stem fn ++ ".pdf"
    ∧ (generate_mcqs fs svc disk fn n).writes.Sublist
        [Artifact.txtFile ("results/" ++ ("generated_mcqs_" ++ stem fn ++ ".txt")) m,
         Artifact.pdfFile ("results/" ++ ("generated_mcqs_" ++ stem fn ++ ".pdf")) (pdfBlocks m)]
    ∧ (disk.writeText ("results/" ++ ("generated_mcqs_" ++ stem fn ++ ".txt")) m = Except.ok () →
        disk.writePdf ("results/" ++ ("generated_mcqs_" ++ stem fn ++ ".pdf")) (pdfBlocks m)
          = Except.ok () →
        (generate_mcqs fs svc disk fn n).writes
          = [Artifact.txtFile ("results/" ++ ("generated_mcqs_" ++ stem fn ++ ".txt")) m,
             Artifact.pdfFile ("results/" ++ ("generated_mcqs_" ++ stem fn ++ ".pdf")) (pdfBlocks m)]) := by
  rcases generate_mcqs_cases fs svc disk fn n with ⟨_, hEq⟩ | ⟨_, _, hEq⟩
    | ⟨u, _, _, _, _, hEq⟩ | ⟨u, m', _, _, _, _, _, hEq⟩
  · rw [hEq] at h; exact absurd h (by simp)
  · rw [hEq] at h; exact absurd h (by simp)
  · rw [hEq] at h; exact absurd h (by simp)
  · rw [hEq] at h
    simp only [successTrace] at h
    obtain ⟨hm, htn, hpn⟩ := Response.resultsPage.inj h
    subst hm
    refine ⟨htn.symm, hpn.symm, ?_, ?_⟩
    · rw [hEq, successTrace_writes]
      exact successWrites_sublist disk fn m'
    · intro hT hP
      rw [hEq, successTrace_writes]
      exact successWrites_ok disk fn m' hT hP

/-- Witness for C8 (amended): in a concrete successful run on an all-succeed
write environment, exactly the two deterministically-named files are
written. -/
theorem two_artifacts_witness :
    (generate_mcqs fsHi svcGarbage diskOk "a.txt" 1).writes
      = [Artifact.txtFile ("results/" ++ ("generated_mcqs_" ++ stem "a.txt" ++ ".txt")) "garbage",
         Artifact.pdfFile ("results/" ++ ("generated_mcqs_" ++ stem "a.txt" ++ ".pdf")) (pdfBlocks "garbage")] :=
  (two_artifacts_thm fsHi svcGarbage diskOk "a.txt" 1 "garbage"
    "generated_mcqs_a.txt" "generated_mcqs_a.pdf" (by decide)).2.2.2 rfl rfl

/-- Counterexample to C8 as stated: when the transcript write raises (and is
swallowed at app.py lines 104-106), the route still reports the results page
with both filenames, but only one file was actually written — a successful
run does not always write exactly two files. -/
theorem write_failure_single_artifact_cex :
    (generate_mcqs fsHi svcGarbage diskNoTxt "a.txt" 1).response
      = Response.resultsPage "garbage" "generated_mcqs_a.txt" "generated_mcqs_a.pdf"
    ∧ (generate_mcqs fsHi svcGarbage diskNoTxt "a.txt" 1).writes
      = [Artifact.pdfFile "results/generated_mcqs_a.pdf" ["garbage"]] := by
  decide

/-- C10: whenever the transcript artifact is written, its content is
byte-for-byte the raw MCQ string returned by the generation stage for the
(unique) text the generator was called on — no re-serialization or
filtering is applied. -/
theorem transcript_is_raw_thm (fs : FS) (svc : String → Except PyErr GenResponse)
    (disk : WriteEnv) (fn : String) (n : Int) (p c : String)
    (h : Artifact.txtFile p c ∈ (generate_mcqs fs svc disk fn n).writes) :
    ∃ t, (generate_mcqs fs svc disk fn n).genCalls = [t]
      ∧ Question_mcqs_generator svc t n = some c := by
  rcases generate_mcqs_cases fs svc disk fn n with ⟨_, hEq⟩ | ⟨_, _, hEq⟩
    | ⟨u, _, _, _, _, hEq⟩ | ⟨u, m, _, _, _, hG, _, hEq⟩
  · rw [hEq] at h; simp at h
  · rw [hEq] at h; simp at h
  · rw [hEq] at h; simp at h
  · rw [hEq, successTrace_writes] at h
    obtain hc := successWrites_txtFile_mem disk fn m p c h
    subst hc
    exact ⟨u, by rw [hEq]; rfl, hG⟩

/-- Witness for C10: in a concrete successful run the transcript content is
exactly the generator's raw output `"garbage"`. -/
theorem transcript_is_raw_witness :
    ∃ t, (generate_mcqs fsHi svcGarbage diskOk "a.txt" 1).genCalls = [t]
      ∧ Question_mcqs_generator svcGarbage t 1 = some "garbage" :=
  transcript_is_raw_thm fsHi svcGarbage diskOk "a.txt" 1
    "results/generated_mcqs_a.txt" "garbage" (by decide)

/-- C6 (amended): PDF extraction joins the per-page texts of every page with
newlines, substituting the empty string for each page that fails to yield
text (a failing page is never fatal); whenever the joined result is
non-empty — including a multi-page document in which every page failed,
where the result is a newline-only string — it is passed downstream to the
generator rather than treated as an extraction failure. -/
theorem pdf_join_downstream_thm (fs : FS) (svc : String → Except PyErr GenResponse)
    (disk : WriteEnv) (fn : String) (n : Int) (pages : List (Option String)) (st e : String)
    (h0 : allowed_file fn = true)
    (h1 : rsplitExt ("uploads/" ++ fn) = some (st, e))
    (h2 : pyLower e = "pdf")
    (h3 : fs.pdfPages ("uploads/" ++ fn) = Except.ok pages) :
    extract_text_from_file fs ("uploads/" ++ fn)
      = some (pyJoin "\n" (pages.map (fun pg => pg.getD "")))
    ∧ (pyJoin "\n" (pages.map (fun pg => pg.getD "")) ≠ "" →
        (generate_mcqs fs svc disk fn n).genCalls
          = [pyJoin "\n" (pages.map (fun pg => pg.getD ""))]) := by
  have hx : extract_text_from_file fs ("uploads/" ++ fn)
      = some (pyJoin "\n" (pages.map (fun pg => pg.getD ""))) := by
    rw [extract_text_from_file, extract_text_body, h1]
    simp [h2, h3]
  refine ⟨hx, ?_⟩
  intro hne
  rcases generate_mcqs_cases fs svc disk fn n with ⟨hA, hEq⟩ | ⟨_, hE, hEq⟩
    | ⟨u, _, hE, _, _, hEq⟩ | ⟨u, m, _, hE, _, _, _, hEq⟩
  · rw [h0] at hA; exact absurd hA (by simp)
  · rcases hE with hE | hE <;> rw [hx] at hE
    · exact absurd hE (by simp)
    · exact absurd (Option.some.inj hE) hne
  · rw [hx] at hE
    have := Option.some.inj hE
    subst this
    rw [hEq]
  · rw [hx] at hE
    have := Option.some.inj hE
    subst this
    rw [hEq]; rfl

/-- Witness for C6 (amended): a two-page PDF whose second page fails yields
`"hi\n"`, which is passed to the generator. -/
theorem pdf_join_downstream_witness :
    (generate_mcqs fsPdfHi svcTimeout diskOk "d.pdf" 1).genCalls = ["hi\n"] := by
  have h := (pdf_join_downstream_thm fsPdfHi svcTimeout diskOk "d.pdf" 1 [some "hi", none]
    "uploads/d" "pdf" (by decide) (by decide) (by decide) rfl).2 (by decide)
  exact h.trans (by decide)

/-- Counterexample to C6 as stated: in a two-page PDF where all pages fail
to yield text, extraction returns the whitespace-only string `"\n"`, which
is not treated as an extraction failure but passed downstream to the
generator. -/
theorem pdf_all_pages_failed_cex :
    extract_text_from_file fsPdfFail "uploads/d.pdf" = some "\n"
    ∧ pyStrip "\n" = ""
    ∧ (generate_mcqs fsPdfFail svcTimeout diskOk "d.pdf" 1).genCalls = ["\n"] := by
  decide

/-- C7 (amended): for a fully well-formed raw response, the transcript
artifact's content is the raw generation output itself, byte-for-byte —
including the `"## MCQ"` delimiter lines — not a re-serialization; splitting
on the delimiter and rejoining the blocks with blank lines does not
reconstruct it, because the delimiters are dropped by that rejoin (see the
counterexample `transcript_not_rejoin_cex`). -/
theorem transcript_verbatim_wellformed_thm (fs : FS)
    (svc : String → Except PyErr GenResponse) (disk : WriteEnv) (fn : String) (n : Int) (p c : String)
    (h : Artifact.txtFile p c ∈ (generate_mcqs fs svc disk fn n).writes)
    (_hwf : fullyWellFormed c = true) :
    ∃ t tn pn, (generate_mcqs fs svc disk fn n).response = Response.resultsPage c tn pn
      ∧ Question_mcqs_generator svc t n = some c := by
  rcases generate_mcqs_cases fs svc disk fn n with ⟨_, hEq⟩ | ⟨_, _, hEq⟩
    | ⟨u, _, _, _, _, hEq⟩ | ⟨u, m, _, _, _, hG, _, hEq⟩
  · rw [hEq] at h; simp at h
  · rw [hEq] at h; simp at h
  · rw [hEq] at h; simp at h
  · rw [hEq, successTrace_writes] at h
    obtain hc := successWrites_txtFile_mem disk fn m p c h
    subst hc
    exact ⟨u, _, _, by rw [hEq]; rfl, hG⟩

/-- Witness for C7 (amended): a concrete run whose generator returns the
fully well-formed `exC7` stores exactly `exC7` as the transcript. -/
theorem transcript_verbatim_wellformed_witness :
    ∃ t tn pn, (generate_mcqs fsHi svcEx7 diskOk "a.txt" 1).response
        = Response.resultsPage exC7 tn pn
      ∧ Question_mcqs_generator svcEx7 t 1 = some exC7 :=
  transcript_verbatim_wellformed_thm fsHi svcEx7 diskOk "a.txt" 1
    "results/generated_mcqs_a.txt" exC7 (by decide) (by decide)

/-- Counterexample to C7 as stated: `exC7` is fully well-formed and is
stored verbatim as the transcript, but splitting on `"## MCQ"` and rejoining
the blocks separated by blank lines does not yield the transcript (the
delimiter header is lost). -/
theorem transcript_not_rejoin_cex :
    fullyWellFormed exC7 = true
    ∧ spec_rejoin exC7 ≠ exC7
    ∧ (generate_mcqs fsHi svcEx7 diskOk "a.txt" 1).writes
      = [Artifact.txtFile "results/generated_mcqs_a.txt" exC7,
         Artifact.pdfFile "results/generated_mcqs_a.pdf" (pdfBlocks exC7)] := by
  decide
